import Mathlib

/-!
Verification of the workflow-orchestrator core of the github-issues-integration
service, shallowly embedded in Lean 4.

The embedding follows the TypeScript source:
- `src/lib/supabase.ts` for the store rows, lookups and the keyed upsert
  (database result lists are modelled as Lean lists; the Supabase query
  pipeline filter/order/limit/single is modelled by list filtering, an
  explicit sort on the creation timestamp, and taking the head);
- `src/app/api/triage/route.ts` (final version in the file) for the
  reconciliation handler `GET`, the confidence gate and its constants;
- `src/lib/github-webhook.ts` for signature verification (byte strings are
  `List Nat`; the HMAC-SHA256 hex digest is an abstract parameter, since the
  verification logic is independent of the digest computation);
- `src/app/api/webhooks/github/route.ts` for the webhook dispatch logic.

Effectful handler code is embedded as pure functions from the outcomes of its
external calls (task-service fetch, task creation) to the list of store
operations it issues plus the HTTP response it returns.
-/

namespace GhIssues

/-- Confidence levels, the TypeScript union type low | medium | high
(used for thresholds, confidence scores and complexity). -/
inductive ConfidenceThreshold where
  | low
  | medium
  | high
deriving DecidableEq, Repr

/-- Structured triage output, interface TriageResult in src/lib/supabase.ts. -/
structure TriageResult where
  scope : String
  complexity : ConfidenceThreshold
  estimated_effort : String
  confidence_score : ConfidenceThreshold
  confidence_reasoning : String
  suggested_approach : String
  blockers : List String
  requires_human_input : Bool
deriving DecidableEq, Repr

/-- Per-user automation settings (interface UserSettings). -/
structure UserSettings where
  auto_triage_enabled : Bool
  auto_pr_enabled : Bool
  pr_confidence_threshold : ConfidenceThreshold
deriving DecidableEq, Repr

/-- Numeric ordinal of a confidence level, constant CONFIDENCE_LEVELS in
src/app/api/triage/route.ts. -/
def CONFIDENCE_LEVELS : ConfidenceThreshold → Nat
  | .low => 1
  | .medium => 2
  | .high => 3

/-- Function meetsConfidenceThreshold from src/app/api/triage/route.ts. -/
def meetsConfidenceThreshold
    (actualConfidence requiredThreshold : ConfidenceThreshold) : Bool :=
  CONFIDENCE_LEVELS actualConfidence ≥ CONFIDENCE_LEVELS requiredThreshold

/-- The auto-advance gate: the boolean shouldAutoStartPR computed in the GET
handler of src/app/api/triage/route.ts. -/
def shouldAutoStartPR (settings : UserSettings) (triageResult : TriageResult) :
    Bool :=
  settings.auto_pr_enabled &&
    meetsConfidenceThreshold triageResult.confidence_score
      settings.pr_confidence_threshold &&
    !triageResult.requires_human_input

/-- Ordinal value as worded in the specification: low=1, medium=2, high=3. -/
def ordinal : ConfidenceThreshold → Nat
  | .low => 1
  | .medium => 2
  | .high => 3

/-- Gate as worded in the specification, for refinement comparison with the
code gate `shouldAutoStartPR`. -/
def shouldAutoAdvance (settings : UserSettings) (triageResult : TriageResult) :
    Bool :=
  settings.auto_pr_enabled &&
    decide (ordinal triageResult.confidence_score ≥
      ordinal settings.pr_confidence_threshold) &&
    !triageResult.requires_human_input

/-- C1: the auto-advance gate computed by the code equals the pure function
of the specification, auto_pr_enabled AND ordinal(confidence) at least
ordinal(threshold) AND NOT requires_human_input with low=1, medium=2, high=3;
in particular confidence high against threshold medium with auto_pr_enabled
and without requires_human_input passes, confidence medium against threshold
high fails, and requires_human_input makes it fail for every threshold. -/
theorem shouldAutoStartPR_matches_spec :
    (∀ (s : UserSettings) (t : TriageResult),
      shouldAutoStartPR s t = shouldAutoAdvance s t) ∧
    (∀ (ate : Bool) (sc eff reas app : String)
        (cx : ConfidenceThreshold) (bl : List String),
      shouldAutoStartPR ⟨ate, true, .medium⟩
        ⟨sc, cx, eff, .high, reas, app, bl, false⟩ = true) ∧
    (∀ (ate apr rhi : Bool) (sc eff reas app : String)
        (cx : ConfidenceThreshold) (bl : List String),
      shouldAutoStartPR ⟨ate, apr, .high⟩
        ⟨sc, cx, eff, .medium, reas, app, bl, rhi⟩ = false) ∧
    (∀ (ate apr : Bool) (thr conf : ConfidenceThreshold)
        (sc eff reas app : String)
        (cx : ConfidenceThreshold) (bl : List String),
      shouldAutoStartPR ⟨ate, apr, thr⟩
        ⟨sc, cx, eff, conf, reas, app, bl, true⟩ = false) := by
  refine ⟨?_, ?_, ?_, ?_⟩
  · rintro ⟨ate, apr, thr⟩ ⟨sc, cx, eff, conf, reas, app, bl, rhi⟩
    cases conf <;> cases thr <;> rfl
  · intro ate sc eff reas app cx bl
    rfl
  · intro ate apr rhi sc eff reas app cx bl
    cases apr <;> rfl
  · intro ate apr thr conf sc eff reas app cx bl
    cases apr <;> cases thr <;> cases conf <;>
      simp [shouldAutoStartPR, meetsConfidenceThreshold, CONFIDENCE_LEVELS]

/-! Webhook signature verification, src/lib/github-webhook.ts. -/

/-- Byte strings (Node Buffers) modelled as lists of byte values. -/
abbrev Bytes := List Nat

/-- Node crypto.timingSafeEqual: compares two buffers of equal length and
raises a RangeError when the lengths differ. Only the functional behaviour is
modelled (the constant-time execution property is a timing property outside
the embedding); the result is byte-wise equality. -/
def timingSafeEqual (a b : Bytes) : Except Unit Bool :=
  if a.length = b.length then .ok (a == b) else .error ()

/-- ASCII bytes of the literal "sha256=". -/
def sha256HeaderBytes : Bytes := [115, 104, 97, 50, 53, 54, 61]

/-- Function verifyGitHubWebhook from src/lib/github-webhook.ts, parameterised
by the HMAC-SHA256 hex-digest computation hmacHex (first argument the secret,
second the payload; a real digest is 64 hex-character bytes long). An absent
signature returns false; otherwise the signature is compared by
timingSafeEqual against "sha256=" followed by the digest, and the length
error of timingSafeEqual propagates. -/
def verifyGitHubWebhook (hmacHex : Bytes → Bytes → Bytes)
    (payload : Bytes) (signature : Option Bytes) (secret : Bytes) :
    Except Unit Bool :=
  match signature with
  | none => .ok false
  | some sig =>
      timingSafeEqual sig (sha256HeaderBytes ++ hmacHex secret payload)

theorem timingSafeEqual_ok_true_iff (a b : Bytes) :
    timingSafeEqual a b = .ok true ↔ a = b := by
  unfold timingSafeEqual
  split
  · next h => simp
  · next h =>
      constructor
      · intro hc
        simp at hc
      · intro hab
        subst hab
        exact absurd rfl h

theorem timingSafeEqual_ok_false (a b : Bytes) (hlen : a.length = b.length)
    (hne : a ≠ b) : timingSafeEqual a b = .ok false := by
  unfold timingSafeEqual
  rw [if_pos hlen]
  simp [hne]

/-! Webhook event dispatch, src/app/api/webhooks/github/route.ts. -/

/-- External task handle (interface DevinSession in src/lib/devin.ts). -/
structure DevinSession where
  session_id : String
  url : String
deriving DecidableEq, Repr

/-- Substring test on character lists, modelling the JavaScript
String.prototype.includes. -/
def containsSub (hay needle : List Char) : Bool :=
  needle.isPrefixOf hay ||
    match hay with
    | [] => false
    | _ :: t => containsSub t needle

/-- Lower-casing of a character list, modelling toLowerCase. -/
def toLowerStr (l : List Char) : List Char := l.map Char.toLower

/-- The re-triage trigger test of handleIssueCommentEvent: the lower-cased
comment body contains "@devin retriage" or "/retriage". -/
def retriageTrigger (body : List Char) : Bool :=
  containsSub (toLowerStr body) "@devin retriage".toList ||
    containsSub (toLowerStr body) "/retriage".toList

/-- Function handleIssueEvent from src/app/api/webhooks/github/route.ts,
as a function of the issue action and of the outcome of the calls inside its
try block (task creation and best-effort comment posting). Result: whether a
triage task creation was started, and the HTTP status returned. -/
def handleIssueEvent (action : String)
    (createOutcome : Except Unit DevinSession) : Bool × Nat :=
  if action == "opened" || action == "edited" then
    match createOutcome with
    | .ok _ => (true, 200)
    | .error _ => (true, 500)
  else
    (false, 200)

/-- Function handleIssueCommentEvent from the same file: a created comment
whose body matches the re-triage trigger starts a triage; everything else is
acknowledged with a 200 response. -/
def handleIssueCommentEvent (action : String) (commentBody : List Char)
    (createOutcome : Except Unit DevinSession) : Bool × Nat :=
  if action == "created" then
    if retriageTrigger commentBody then
      match createOutcome with
      | .ok _ => (true, 200)
      | .error _ => (true, 500)
    else
      (false, 200)
  else
    (false, 200)

/-- The POST handler of src/app/api/webhooks/github/route.ts as a function of
the configured secret, the signature header, the raw payload and the outcome
of the dispatch performed inside the try block. The verification call (and
the JSON parse, not separately modelled) sits outside the try block, so an
exception it raises escapes the handler: the result is an error value, not an
HTTP status. -/
def webhookPOST (hmacHex : Bytes → Bytes → Bytes) (secret : Option Bytes)
    (signature : Option Bytes) (payload : Bytes)
    (dispatch : Except Unit Nat) : Except Unit Nat :=
  match secret with
  | none => .ok 500
  | some sec =>
      match verifyGitHubWebhook hmacHex payload signature sec with
      | .error e => .error e
      | .ok false => .ok 401
      | .ok true =>
          match dispatch with
          | .ok st => .ok st
          | .error _ => .ok 500

/-- C4: verification succeeds exactly when the signature equals "sha256="
followed by the hex HMAC digest of the payload under the secret; an absent
header fails without raising; flipping the signature (any change preserving
its length) makes it fail; and changing the payload makes it fail provided
the digests differ (their lengths always agree for a real hex digest). -/
theorem verifyGitHubWebhook_correct (hmacHex : Bytes → Bytes → Bytes)
    (payload secret : Bytes) :
    (∀ sig : Bytes,
      verifyGitHubWebhook hmacHex payload (some sig) secret = .ok true ↔
        sig = sha256HeaderBytes ++ hmacHex secret payload) ∧
    verifyGitHubWebhook hmacHex payload none secret = .ok false ∧
    (∀ sig sig' : Bytes, sig' ≠ sig → sig'.length = sig.length →
      verifyGitHubWebhook hmacHex payload (some sig) secret = .ok true →
      verifyGitHubWebhook hmacHex payload (some sig') secret = .ok false) ∧
    (∀ payload' : Bytes,
      hmacHex secret payload' ≠ hmacHex secret payload →
      (hmacHex secret payload').length = (hmacHex secret payload).length →
      ∀ sig : Bytes,
      verifyGitHubWebhook hmacHex payload (some sig) secret = .ok true →
      verifyGitHubWebhook hmacHex payload' (some sig) secret = .ok false) := by
  refine ⟨?_, rfl, ?_, ?_⟩
  · intro sig
    exact timingSafeEqual_ok_true_iff sig _
  · intro sig sig' hne hlen hok
    have hsig := (timingSafeEqual_ok_true_iff sig _).mp hok
    exact timingSafeEqual_ok_false sig' _ (by rw [hlen, hsig]) (hsig ▸ hne)
  · intro payload' hdne hdlen sig hok
    have hsig := (timingSafeEqual_ok_true_iff sig _).mp hok
    refine timingSafeEqual_ok_false sig _ ?_ ?_
    · rw [hsig]
      simp [hdlen]
    · rw [hsig]
      intro hcontra
      exact hdne (List.append_cancel_left hcontra.symm)

theorem verifyGitHubWebhook_correct_witness :
    verifyGitHubWebhook (fun _ p => [p.headD 0]) [6]
        (some (sha256HeaderBytes ++ [5])) [] = .ok false ∧
    verifyGitHubWebhook (fun _ p => [p.headD 0]) [5]
        (some (sha256HeaderBytes ++ [7])) [] = .ok false := by
  constructor
  · exact (verifyGitHubWebhook_correct (fun _ p => [p.headD 0]) [5] []).2.2.2
      [6] (by decide) (by decide) (sha256HeaderBytes ++ [5]) rfl
  · exact (verifyGitHubWebhook_correct (fun _ p => [p.headD 0]) [5] []).2.2.1
      (sha256HeaderBytes ++ [5]) (sha256HeaderBytes ++ [7]) (by decide)
      (by decide) (by rfl)

/-- C10: verifyGitHubWebhook returns false for an absent header and for an
equal-length mismatching signature, but a present signature whose byte length
differs from the expected 71 bytes ("sha256=" plus 64 hex digits) makes
timingSafeEqual raise instead of returning false; in the POST route this call
is outside the try block, so such a request escapes as an exception rather
than being answered with the 401 rejection. -/
theorem verifyGitHubWebhook_length_mismatch_throws
    (hmacHex : Bytes → Bytes → Bytes) (payload secret sig : Bytes)
    (dispatch : Except Unit Nat)
    (hdig : (hmacHex secret payload).length = 64)
    (hsig : sig.length ≠ 71) :
    verifyGitHubWebhook hmacHex payload (some sig) secret = .error () ∧
    verifyGitHubWebhook hmacHex payload none secret = .ok false ∧
    (∀ sig' : Bytes, sig'.length = 71 →
      sig' ≠ sha256HeaderBytes ++ hmacHex secret payload →
      verifyGitHubWebhook hmacHex payload (some sig') secret = .ok false) ∧
    webhookPOST hmacHex (some secret) (some sig) payload dispatch =
      .error () := by
  have hexp : (sha256HeaderBytes ++ hmacHex secret payload).length = 71 := by
    simp [sha256HeaderBytes, hdig]
  have hverr : verifyGitHubWebhook hmacHex payload (some sig) secret =
      .error () := by
    simp only [verifyGitHubWebhook, timingSafeEqual, hexp]
    rw [if_neg hsig]
  refine ⟨hverr, rfl, ?_, ?_⟩
  · intro sig' hlen' hne'
    exact timingSafeEqual_ok_false sig' _ (by rw [hlen', hexp]) hne'
  · simp only [webhookPOST]
    rw [hverr]

theorem verifyGitHubWebhook_length_mismatch_throws_witness :
    verifyGitHubWebhook (fun _ _ => List.replicate 64 0) [] (some []) [] =
      .error () ∧
    webhookPOST (fun _ _ => List.replicate 64 0) (some []) (some []) []
      (.ok 200) = .error () := by
  have h := verifyGitHubWebhook_length_mismatch_throws
    (fun _ _ => List.replicate 64 0) [] [] [] (.ok 200)
    (by simp) (by decide)
  exact ⟨h.1, h.2.2.2⟩

/-- C8: the webhook handlers start a triage task exactly for item events with
action opened or edited and for created comments whose body matches the
case-insensitive re-triage trigger; every other verified item action or
comment is acknowledged with a 200 response and starts no triage (the last
conjunct exhibits case-insensitive matching on an upper-case trigger). -/
theorem webhook_triage_triggers :
    (∀ (action : String) (c : Except Unit DevinSession),
      (handleIssueEvent action c).1 =
        (action == "opened" || action == "edited")) ∧
    (∀ (action : String) (body : List Char) (c : Except Unit DevinSession),
      (handleIssueCommentEvent action body c).1 =
        (action == "created" && retriageTrigger body)) ∧
    (∀ (action : String) (c : Except Unit DevinSession),
      (handleIssueEvent action c).1 = false →
      (handleIssueEvent action c).2 = 200) ∧
    (∀ (action : String) (body : List Char) (c : Except Unit DevinSession),
      (handleIssueCommentEvent action body c).1 = false →
      (handleIssueCommentEvent action body c).2 = 200) ∧
    (handleIssueCommentEvent "created" "Please /RETRIAGE this".toList
      (.ok ⟨"s", "u"⟩)).1 = true := by
  refine ⟨?_, ?_, ?_, ?_, by decide⟩
  · intro action c
    unfold handleIssueEvent
    split
    · next h => cases c <;> simp [h]
    · next h => simp [Bool.not_eq_true] at h; simp [h]
  · intro action body c
    unfold handleIssueCommentEvent
    split
    · next h =>
        split
        · next ht => cases c <;> simp [h, ht]
        · next ht => simp [h, Bool.not_eq_true] at *; simp [ht]
    · next h => simp [Bool.not_eq_true] at h; simp [h]
  · intro action c
    unfold handleIssueEvent
    split
    · cases c <;> simp
    · simp
  · intro action body c
    unfold handleIssueCommentEvent
    split
    · split
      · cases c <;> simp
      · simp
    · simp

theorem webhook_triage_triggers_witness :
    (handleIssueEvent "closed" (.ok ⟨"s", "u"⟩)).2 = 200 ∧
    (handleIssueCommentEvent "created" "thanks".toList
      (.ok ⟨"s", "u"⟩)).2 = 200 :=
  ⟨webhook_triage_triggers.2.2.1 "closed" (.ok ⟨"s", "u"⟩) (by decide),
   webhook_triage_triggers.2.2.2.1 "created" "thanks".toList (.ok ⟨"s", "u"⟩)
     (by decide)⟩

/-! Reconciliation handler: the GET route of src/app/api/triage/route.ts
(final version of the handler in that file). -/

/-- External task status details (interface DevinSessionDetails), restricted
to the fields the handler reads. -/
structure DevinSessionDetails where
  session_id : String
  status : String
  title : String
  structured_output : Option TriageResult
deriving DecidableEq, Repr

/-- Payload of an upsertIssueWorkflow call issued by the handler; fields the
handler leaves out of the object literal are none. -/
structure WorkflowUpsert where
  repo_owner : String
  repo_name : String
  issue_number : Nat
  workflow_status : String
  triage_session_id : Option String
  triage_session_url : Option String
  pr_session_id : Option String
  pr_session_url : Option String
deriving DecidableEq, Repr

/-- Store and task-service operations issued by the handler, in program
order. attemptCreatePR records that createPRSession was invoked. -/
inductive Op where
  | updateTriage (sessionId : String) (status : String)
      (output : Option TriageResult)
  | attemptCreatePR
  | upsertWf (w : WorkflowUpsert)
deriving DecidableEq, Repr

/-- Response of the handler: HTTP status plus the body fields the claims
mention. isError marks the error body of the catch branch. -/
structure ReconcileResponse where
  httpStatus : Nat
  is_complete : Bool
  pr_session_started : Bool
  pr_session_id : Option String
  pr_session_url : Option String
  isError : Bool
deriving DecidableEq, Repr

/-- JavaScript truthiness of an optional query-string value: absent values
and empty strings are falsy. -/
def strTruthy : Option String → Bool
  | none => false
  | some s => !(s == "")

/-- The GET handler of src/app/api/triage/route.ts as a function of the
outcomes of its external calls: fetch is the getSessionDetails result (error
means the call raised, entering the catch branch, whose best-effort update of
the TriageSession to failed is recorded as an operation), and prCreate is the
combined outcome of JSON.parse of issue_data plus createPRSession (both run
inside the inner try). issueNumber models the issue_number query parameter
after parseInt. Returns the operations issued and the response. -/
def reconcileGET (sessionId : String)
    (fetch : Except Unit DevinSessionDetails) (settings : UserSettings)
    (owner repo : Option String) (issueNumber : Option Nat)
    (issueData : Option String) (prCreate : Except Unit DevinSession) :
    List Op × ReconcileResponse :=
  match fetch with
  | .error _ =>
      ([.updateTriage sessionId "failed" none],
       ⟨500, true, false, none, none, true⟩)
  | .ok d =>
      let isSessionEnded :=
        d.status == "stopped" || d.status == "blocked" || d.status == "error"
      match d.structured_output with
      | some triageResult =>
          let baseOps :=
            [Op.updateTriage sessionId "completed" (some triageResult)]
          if strTruthy owner && strTruthy repo && issueNumber.isSome then
            let o := owner.getD ""
            let r := repo.getD ""
            let n := issueNumber.getD 0
            if shouldAutoStartPR settings triageResult && strTruthy issueData
            then
              match prCreate with
              | .ok prSession =>
                  (baseOps ++ [Op.attemptCreatePR,
                    Op.upsertWf ⟨o, r, n, "processing", some sessionId,
                      (if d.title == "" then none else
                        some ("https://app.devin.ai/sessions/" ++ sessionId)),
                      some prSession.session_id, some prSession.url⟩],
                   ⟨200, true, true, some prSession.session_id,
                    some prSession.url, false⟩)
              | .error _ =>
                  (baseOps ++ [Op.attemptCreatePR,
                    Op.upsertWf ⟨o, r, n, "triaged", some sessionId,
                      none, none, none⟩],
                   ⟨200, true, false, none, none, false⟩)
            else
              (baseOps ++ [Op.upsertWf ⟨o, r, n, "triaged", some sessionId,
                none, none, none⟩],
               ⟨200, true, false, none, none, false⟩)
          else
            (baseOps, ⟨200, true, false, none, none, false⟩)
      | none =>
          if d.status == "error" then
            ([Op.updateTriage sessionId "failed" none] ++
              (if strTruthy owner && strTruthy repo && issueNumber.isSome
               then
                [Op.upsertWf ⟨owner.getD "", repo.getD "",
                  issueNumber.getD 0, "failed", some sessionId,
                  none, none, none⟩]
               else []),
             ⟨200, isSessionEnded, false, none, none, false⟩)
          else
            ([], ⟨200, isSessionEnded, false, none, none, false⟩)

/-- Concrete settings used by witnesses: auto_pr_enabled with a low
threshold. -/
def exSettingsLow : UserSettings := ⟨true, true, .low⟩

/-- Concrete high-confidence triage result used by witnesses. -/
def exTriageHigh : TriageResult :=
  ⟨"scope", .low, "1-2 hours", .high, "reason", "approach", [], false⟩

/-- C2 (amended): for a poll observing a completed triage with owner, repo
and issue number supplied: when the gate passes, the issue payload is
supplied and the PR-creation call succeeds, a PR task is created and the
workflow row is upserted to processing carrying the PR task id and url; when
the gate fails, the workflow row is upserted to triaged carrying the triage
task id and no PR task creation is attempted. -/
theorem reconcile_completed_gate (sessionId s st ti : String)
    (tr : TriageResult) (settings : UserSettings) (o r dat : String)
    (n : Nat) (h : DevinSession)
    (ho : o ≠ "") (hr : r ≠ "") (hd : dat ≠ "") :
    (shouldAutoStartPR settings tr = true →
      reconcileGET sessionId (.ok ⟨s, st, ti, some tr⟩) settings
        (some o) (some r) (some n) (some dat) (.ok h) =
        ([.updateTriage sessionId "completed" (some tr), .attemptCreatePR,
          .upsertWf ⟨o, r, n, "processing", some sessionId,
            (if ti == "" then none else
              some ("https://app.devin.ai/sessions/" ++ sessionId)),
            some h.session_id, some h.url⟩],
         ⟨200, true, true, some h.session_id, some h.url, false⟩)) ∧
    (shouldAutoStartPR settings tr = false →
      ∀ (dat' : Option String) (pr' : Except Unit DevinSession),
      reconcileGET sessionId (.ok ⟨s, st, ti, some tr⟩) settings
        (some o) (some r) (some n) dat' pr' =
        ([.updateTriage sessionId "completed" (some tr),
          .upsertWf ⟨o, r, n, "triaged", some sessionId, none, none, none⟩],
         ⟨200, true, false, none, none, false⟩)) := by
  have ho' : (o == "") = false := beq_eq_false_iff_ne.mpr ho
  have hr' : (r == "") = false := beq_eq_false_iff_ne.mpr hr
  have hd' : (dat == "") = false := beq_eq_false_iff_ne.mpr hd
  constructor
  · intro hgate
    simp [reconcileGET, strTruthy, ho', hr', hd', hgate]
  · intro hgate dat' pr'
    simp [reconcileGET, strTruthy, ho', hr', hgate]

theorem reconcile_completed_gate_witness :
    reconcileGET "sid" (.ok ⟨"sid", "running", "t", some exTriageHigh⟩)
        exSettingsLow (some "o") (some "r") (some 1) (some "d")
        (.ok ⟨"prs", "pru"⟩) =
      ([.updateTriage "sid" "completed" (some exTriageHigh),
        .attemptCreatePR,
        .upsertWf ⟨"o", "r", 1, "processing", some "sid",
          some ("https://app.devin.ai/sessions/" ++ "sid"),
          some "prs", some "pru"⟩],
       ⟨200, true, true, some "prs", some "pru", false⟩) := by
  have := (reconcile_completed_gate "sid" "sid" "running" "t" exTriageHigh
    exSettingsLow "o" "r" "d" 1 ⟨"prs", "pru"⟩
    (by decide) (by decide) (by decide)).1 (by decide)
  simpa using this

/-- C2 counterexample: at a concrete input whose gate passes but whose
issue_data parameter is absent, the handler attempts no PR creation and
upserts the workflow row to triaged, not processing, contradicting the claim
as stated. -/
theorem reconcile_gate_pass_without_issue_data :
    shouldAutoStartPR exSettingsLow exTriageHigh = true ∧
    reconcileGET "sid" (.ok ⟨"sid", "running", "t", some exTriageHigh⟩)
        exSettingsLow (some "o") (some "r") (some 1) none
        (.ok ⟨"prs", "pru"⟩) =
      ([.updateTriage "sid" "completed" (some exTriageHigh),
        .upsertWf ⟨"o", "r", 1, "triaged", some "sid", none, none, none⟩],
       ⟨200, true, false, none, none, false⟩) ∧
    Op.attemptCreatePR ∉
      (reconcileGET "sid" (.ok ⟨"sid", "running", "t", some exTriageHigh⟩)
        exSettingsLow (some "o") (some "r") (some 1) none
        (.ok ⟨"prs", "pru"⟩)).1 := by
  refine ⟨by decide, by decide, by decide⟩

/-- C3 (amended): when the status fetch raises while reconciling, the handler
performs a best-effort update of the TriageSession (not of the workflow row)
to failed and surfaces a 500 error response; when the PR-creation call raises
after a passing gate, the error is swallowed: the workflow row is upserted to
triaged and a success response with pr_session_started false is returned. -/
theorem reconcile_task_service_errors (sessionId s st ti : String)
    (tr : TriageResult) (settings : UserSettings) (o r dat : String) (n : Nat)
    (ho : o ≠ "") (hr : r ≠ "") (hd : dat ≠ "")
    (hgate : shouldAutoStartPR settings tr = true) :
    (∀ (owner repo : Option String) (num : Option Nat)
        (datx : Option String) (pr : Except Unit DevinSession),
      reconcileGET sessionId (.error ()) settings owner repo num datx pr =
        ([.updateTriage sessionId "failed" none],
         ⟨500, true, false, none, none, true⟩)) ∧
    reconcileGET sessionId (.ok ⟨s, st, ti, some tr⟩) settings
        (some o) (some r) (some n) (some dat) (.error ()) =
      ([.updateTriage sessionId "completed" (some tr), .attemptCreatePR,
        .upsertWf ⟨o, r, n, "triaged", some sessionId, none, none, none⟩],
       ⟨200, true, false, none, none, false⟩) := by
  have ho' : (o == "") = false := beq_eq_false_iff_ne.mpr ho
  have hr' : (r == "") = false := beq_eq_false_iff_ne.mpr hr
  have hd' : (dat == "") = false := beq_eq_false_iff_ne.mpr hd
  constructor
  · intro owner repo num datx pr
    rfl
  · simp [reconcileGET, strTruthy, ho', hr', hd', hgate]

theorem reconcile_task_service_errors_witness :
    reconcileGET "sid" (.error ()) exSettingsLow none none none none
        (.ok ⟨"p", "q"⟩) =
      ([.updateTriage "sid" "failed" none],
       ⟨500, true, false, none, none, true⟩) :=
  (reconcile_task_service_errors "sid" "sid" "running" "t" exTriageHigh
    exSettingsLow "o" "r" "d" 1 (by decide) (by decide) (by decide)
    (by decide)).1 none none none none (.ok ⟨"p", "q"⟩)

/-- C3 counterexample: at a concrete input where the PR-creation call raises
after a passing gate, the handler upserts the workflow row to triaged rather
than failed and returns a 200 success response, so the error is neither
written as a failed state nor surfaced, contradicting the claim as stated. -/
theorem reconcile_pr_error_not_failed :
    reconcileGET "sid" (.ok ⟨"sid", "running", "t", some exTriageHigh⟩)
        exSettingsLow (some "o") (some "r") (some 1) (some "d")
        (.error ()) =
      ([.updateTriage "sid" "completed" (some exTriageHigh),
        .attemptCreatePR,
        .upsertWf ⟨"o", "r", 1, "triaged", some "sid", none, none, none⟩],
       ⟨200, true, false, none, none, false⟩) ∧
    (reconcileGET "sid" (.ok ⟨"sid", "running", "t", some exTriageHigh⟩)
        exSettingsLow (some "o") (some "r") (some 1) (some "d")
        (.error ())).2.httpStatus = 200 ∧
    (reconcileGET "sid" (.ok ⟨"sid", "running", "t", some exTriageHigh⟩)
        exSettingsLow (some "o") (some "r") (some 1) (some "d")
        (.error ())).2.isError = false := by
  refine ⟨by decide, by decide, by decide⟩

/-- C7: a poll in which the external task reports status error with no
structured result updates the TriageSession to failed and, when owner, repo
and issue number are supplied, also upserts the workflow row to failed; the
TriageSession update happens first in every case. -/
theorem reconcile_error_status (sessionId s ti : String)
    (settings : UserSettings) (o r : String) (n : Nat)
    (dat : Option String) (pr : Except Unit DevinSession)
    (ho : o ≠ "") (hr : r ≠ "") :
    reconcileGET sessionId (.ok ⟨s, "error", ti, none⟩) settings
        (some o) (some r) (some n) dat pr =
      ([.updateTriage sessionId "failed" none,
        .upsertWf ⟨o, r, n, "failed", some sessionId, none, none, none⟩],
       ⟨200, true, false, none, none, false⟩) ∧
    (∀ (owner repo : Option String) (num : Option Nat),
      (reconcileGET sessionId (.ok ⟨s, "error", ti, none⟩) settings
        owner repo num dat pr).1.head? =
        some (.updateTriage sessionId "failed" none)) := by
  have ho' : (o == "") = false := beq_eq_false_iff_ne.mpr ho
  have hr' : (r == "") = false := beq_eq_false_iff_ne.mpr hr
  constructor
  · simp [reconcileGET, strTruthy, ho', hr']
  · intro owner repo num
    simp only [reconcileGET]
    split
    · next h => simp
    · next h => simp at h

theorem reconcile_error_status_witness :
    reconcileGET "sid" (.ok ⟨"sid", "error", "", none⟩) exSettingsLow
        (some "o") (some "r") (some 3) none (.ok ⟨"p", "q"⟩) =
      ([.updateTriage "sid" "failed" none,
        .upsertWf ⟨"o", "r", 3, "failed", some "sid", none, none, none⟩],
       ⟨200, true, false, none, none, false⟩) :=
  (reconcile_error_status "sid" "sid" "" exSettingsLow "o" "r" 3 none
    (.ok ⟨"p", "q"⟩) (by decide) (by decide)).1

/-! Workflow store, src/lib/supabase.ts. Tables are modelled as lists of
rows; the PostgREST query pipeline is modelled by list filtering, an explicit
sort on created_at for the order clause, and taking elements. -/

/-- A row of the triage_sessions table (interface TriageSession), with the
store-assigned creation timestamp. -/
structure TriageSessionRow where
  repo_owner : String
  repo_name : String
  issue_number : Nat
  session_id : String
  session_url : String
  status : String
  structured_output : Option TriageResult
  created_at : Nat
deriving DecidableEq, Repr

/-- Key filter of getTriageSession: the three eq clauses of the query. -/
def sessionKeyMatches (repoOwner repoName : String) (issueNumber : Nat)
    (row : TriageSessionRow) : Bool :=
  row.repo_owner == repoOwner && row.repo_name == repoName &&
    row.issue_number == issueNumber

/-- Descending order on created_at: the order clause
created_at ascending false of the queries. -/
def createdDesc (a b : TriageSessionRow) : Prop :=
  b.created_at ≤ a.created_at

instance : DecidableRel createdDesc := fun a b =>
  Nat.decLe b.created_at a.created_at

instance : IsTotal TriageSessionRow createdDesc :=
  ⟨fun a b => Nat.le_total b.created_at a.created_at⟩

instance : IsTrans TriageSessionRow createdDesc :=
  ⟨fun _ _ _ hab hbc => Nat.le_trans hbc hab⟩

/-- The order clause applied to a result set. -/
def sortByCreatedDesc (rows : List TriageSessionRow) :
    List TriageSessionRow :=
  List.insertionSort createdDesc rows

/-- Function getTriageSession from src/lib/supabase.ts: filter by key, order
by created_at descending, limit 1, single; the PGRST116 no-row outcome is the
absent result. -/
def getTriageSession (db : List TriageSessionRow)
    (repoOwner repoName : String) (issueNumber : Nat) :
    Option TriageSessionRow :=
  (sortByCreatedDesc
    (db.filter (sessionKeyMatches repoOwner repoName issueNumber))).head?

/-- Batch filter of getLatestTriageForIssues: repo key plus membership of
issue_number in the requested list. -/
def batchKeyMatches (repoOwner repoName : String) (issueNumbers : List Nat)
    (row : TriageSessionRow) : Bool :=
  row.repo_owner == repoOwner && row.repo_name == repoName &&
    issueNumbers.contains row.issue_number

/-- One step of the Map construction loop of getLatestTriageForIssues: the
first row seen for an issue number wins (the has check before set). -/
def insertIfAbsent (m : List (Nat × TriageSessionRow))
    (row : TriageSessionRow) : List (Nat × TriageSessionRow) :=
  if (m.lookup row.issue_number).isSome then m
  else m ++ [(row.issue_number, row)]

/-- Function getLatestTriageForIssues from src/lib/supabase.ts: early return
of an empty Map for an empty request, then filter, order by created_at
descending and keep the first row per issue number. The Map is modelled as an
association list read through lookup. -/
def getLatestTriageForIssues (db : List TriageSessionRow)
    (repoOwner repoName : String) (issueNumbers : List Nat) :
    List (Nat × TriageSessionRow) :=
  if issueNumbers.isEmpty then []
  else
    (sortByCreatedDesc
      (db.filter (batchKeyMatches repoOwner repoName issueNumbers))).foldl
      insertIfAbsent []

theorem sorted_sortByCreatedDesc (l : List TriageSessionRow) :
    List.Sorted createdDesc (sortByCreatedDesc l) :=
  List.sorted_insertionSort createdDesc l

theorem perm_sortByCreatedDesc (l : List TriageSessionRow) :
    List.Perm (sortByCreatedDesc l) l :=
  List.perm_insertionSort createdDesc l

theorem find?_sorted_created_max (p : TriageSessionRow → Bool) :
    ∀ (l : List TriageSessionRow), List.Sorted createdDesc l →
    ∀ s, l.find? p = some s →
    ∀ t ∈ l, p t = true → t.created_at ≤ s.created_at := by
  intro l
  induction l with
  | nil => intro _ s hfind; simp at hfind
  | cons a l ih =>
      intro hsort s hfind t ht hpt
      rcases List.mem_cons.mp ht with rfl | htl
      · cases hpa : p t with
        | true =>
            rw [List.find?_cons, hpa] at hfind
            cases hfind
            exact Nat.le_refl _
        | false => rw [hpa] at hpt; cases hpt
      · cases hpa : p a with
        | true =>
            rw [List.find?_cons, hpa] at hfind
            cases hfind
            exact List.rel_of_sorted_cons hsort t htl
        | false =>
            rw [List.find?_cons, hpa] at hfind
            exact ih hsort.of_cons s hfind t htl hpt

theorem lookup_append_single (m : List (Nat × TriageSessionRow))
    (k n : Nat) (v : TriageSessionRow) :
    (m ++ [(k, v)]).lookup n =
      (m.lookup n).orElse
        (fun _ => if n == k then some v else none) := by
  induction m with
  | nil => cases h : n == k <;> simp [List.lookup, h, Option.orElse]
  | cons a m ih =>
      obtain ⟨k', v'⟩ := a
      cases h : n == k' <;> simp [List.lookup, h, ih, Option.orElse]

theorem lookup_foldl_insertIfAbsent :
    ∀ (rows : List TriageSessionRow) (m : List (Nat × TriageSessionRow))
      (n : Nat),
    (rows.foldl insertIfAbsent m).lookup n =
      (m.lookup n).orElse
        (fun _ => rows.find? (fun row => row.issue_number == n)) := by
  intro rows
  induction rows with
  | nil =>
      intro m n
      cases h : m.lookup n <;> simp [h, Option.orElse]
  | cons row rows ih =>
      intro m n
      rw [List.foldl_cons, ih]
      unfold insertIfAbsent
      split
      · next hm =>
          cases hn : m.lookup n with
          | some v => simp [hn, Option.orElse]
          | none =>
              have hrow : (row.issue_number == n) = false := by
                cases hb : row.issue_number == n with
                | true =>
                    have heq : row.issue_number = n := by simpa using hb
                    rw [heq, hn] at hm
                    simp at hm
                | false => rfl
              simp [hn, Option.orElse, List.find?_cons, hrow]
      · next hm =>
          rw [lookup_append_single]
          cases hn : m.lookup n with
          | some v => simp [hn, Option.orElse]
          | none =>
              cases hb : row.issue_number == n with
              | true =>
                  have hb' : (n == row.issue_number) = true := by
                    simp only [beq_iff_eq] at hb ⊢
                    exact hb.symm
                  simp [hn, Option.orElse, List.find?_cons, hb, hb']
              | false =>
                  have hb' : (n == row.issue_number) = false := by
                    simp only [beq_eq_false_iff_ne] at hb ⊢
                    exact fun h => hb h.symm
                  simp [hn, Option.orElse, List.find?_cons, hb, hb']

theorem mem_sessionKey_iff_batch (db : List TriageSessionRow)
    (repoOwner repoName : String) (issueNumbers : List Nat) (n : Nat)
    (hn : n ∈ issueNumbers) (t : TriageSessionRow) :
    t ∈ db.filter (sessionKeyMatches repoOwner repoName n) ↔
      t ∈ db.filter (batchKeyMatches repoOwner repoName issueNumbers) ∧
        (t.issue_number == n) = true := by
  simp only [List.mem_filter, sessionKeyMatches, batchKeyMatches,
    Bool.and_eq_true, beq_iff_eq, List.elem_iff]
  constructor
  · rintro ⟨htdb, ⟨ho, hr⟩, hnum⟩
    exact ⟨⟨htdb, ⟨ho, hr⟩, hnum ▸ hn⟩, hnum⟩
  · rintro ⟨⟨htdb, ⟨ho, hr⟩, _⟩, hnum⟩
    exact ⟨htdb, ⟨ho, hr⟩, hnum⟩

/-- C5: the single-record latest lookup returns a row of the key with
maximal created_at, absent exactly when no row of the key exists; the batch
counterpart holds, for each requested issue number, exactly such a latest
row, omitting issue numbers with no record and numbers not requested. -/
theorem getTriageSession_latest (db : List TriageSessionRow)
    (repoOwner repoName : String) (n : Nat) :
    (getTriageSession db repoOwner repoName n = none ↔
      db.filter (sessionKeyMatches repoOwner repoName n) = []) ∧
    (∀ s, getTriageSession db repoOwner repoName n = some s →
      s ∈ db.filter (sessionKeyMatches repoOwner repoName n) ∧
      ∀ t ∈ db.filter (sessionKeyMatches repoOwner repoName n),
        t.created_at ≤ s.created_at) ∧
    (∀ issueNumbers : List Nat, n ∈ issueNumbers →
      ((getLatestTriageForIssues db repoOwner repoName
          issueNumbers).lookup n = none ↔
        db.filter (sessionKeyMatches repoOwner repoName n) = []) ∧
      (∀ s, (getLatestTriageForIssues db repoOwner repoName
          issueNumbers).lookup n = some s →
        s ∈ db.filter (sessionKeyMatches repoOwner repoName n) ∧
        ∀ t ∈ db.filter (sessionKeyMatches repoOwner repoName n),
          t.created_at ≤ s.created_at)) ∧
    (∀ issueNumbers : List Nat, n ∉ issueNumbers →
      (getLatestTriageForIssues db repoOwner repoName
        issueNumbers).lookup n = none) := by
  have hperm := perm_sortByCreatedDesc
    (db.filter (sessionKeyMatches repoOwner repoName n))
  refine ⟨?_, ?_, ?_, ?_⟩
  · rw [getTriageSession, List.head?_eq_none_iff]
    constructor
    · intro h
      have h2 := hperm
      rw [h] at h2
      exact h2.symm.eq_nil
    · intro h
      rw [h]
      rfl
  · intro s hs
    rw [getTriageSession] at hs
    set S := sortByCreatedDesc
      (db.filter (sessionKeyMatches repoOwner repoName n)) with hS
    have hsort : List.Sorted createdDesc S := sorted_sortByCreatedDesc _
    cases hcase : S with
    | nil => rw [hcase] at hs; cases hs
    | cons a tail =>
        rw [hcase] at hs
        cases hs
        rw [hcase] at hsort
        constructor
        · exact hperm.mem_iff.mp (by rw [hcase]; exact List.mem_cons_self _ _)
        · intro t ht
          have htS : t ∈ S := hperm.mem_iff.mpr ht
          rw [hcase] at htS
          rcases List.mem_cons.mp htS with rfl | htail
          · exact Nat.le_refl _
          · exact List.rel_of_sorted_cons hsort t htail
  · intro issueNumbers hn
    have hne : issueNumbers.isEmpty = false := by
      cases issueNumbers with
      | nil => cases hn
      | cons a l => rfl
    set F := db.filter (batchKeyMatches repoOwner repoName issueNumbers)
      with hF
    have hlookup : (getLatestTriageForIssues db repoOwner repoName
        issueNumbers).lookup n =
        (sortByCreatedDesc F).find? (fun row => row.issue_number == n) := by
      rw [getLatestTriageForIssues, if_neg (by rw [hne]; exact
        Bool.false_ne_true), lookup_foldl_insertIfAbsent]
      rfl
    have hpermF := perm_sortByCreatedDesc F
    have hmem := mem_sessionKey_iff_batch db repoOwner repoName
      issueNumbers n hn
    constructor
    · rw [hlookup, List.find?_eq_none]
      constructor
      · intro h
        rw [List.eq_nil_iff_forall_not_mem]
        intro t ht
        have := (hmem t).mp ht
        exact h t (hpermF.mem_iff.mpr this.1) this.2
      · intro h t ht hpt
        have : t ∈ db.filter (sessionKeyMatches repoOwner repoName n) :=
          (hmem t).mpr ⟨hpermF.mem_iff.mp ht, hpt⟩
        rw [h] at this
        cases this
    · intro s hsome
      rw [hlookup] at hsome
      have hsS : s ∈ sortByCreatedDesc F :=
        List.mem_of_find?_eq_some hsome
      have hps0 := List.find?_some hsome
      have hps : (s.issue_number == n) = true := hps0
      constructor
      · exact (hmem s).mpr ⟨hpermF.mem_iff.mp hsS, hps⟩
      · intro t ht
        have := (hmem t).mp ht
        exact find?_sorted_created_max _ _ (sorted_sortByCreatedDesc F)
          s hsome t (hpermF.mem_iff.mpr this.1) this.2
  · intro issueNumbers hn
    cases hcase : issueNumbers.isEmpty with
    | true =>
        rw [getLatestTriageForIssues, if_pos (by rw [hcase])]
        rfl
    | false =>
        rw [getLatestTriageForIssues, if_neg (by rw [hcase]; exact
          Bool.false_ne_true), lookup_foldl_insertIfAbsent]
        have : (sortByCreatedDesc (db.filter (batchKeyMatches repoOwner
            repoName issueNumbers))).find?
            (fun row => row.issue_number == n) = none := by
          rw [List.find?_eq_none]
          intro t ht hpt
          have hpt' : (t.issue_number == n) = true := hpt
          have hteq : t.issue_number = n := by simpa using hpt'
          have htF := (perm_sortByCreatedDesc _).mem_iff.mp ht
          have := (List.mem_filter.mp htF).2
          simp only [batchKeyMatches, Bool.and_eq_true,
            List.elem_iff] at this
          exact hn (hteq ▸ this.2)
        rw [this]
        rfl

theorem getTriageSession_latest_witness :
    (getTriageSession
        [⟨"o", "r", 1, "s1", "u1", "completed", none, 5⟩,
         ⟨"o", "r", 1, "s2", "u2", "in_progress", none, 9⟩,
         ⟨"o", "r", 2, "s3", "u3", "pending", none, 7⟩]
        "o" "r" 1 = some ⟨"o", "r", 1, "s2", "u2", "in_progress", none, 9⟩) ∧
    ((getLatestTriageForIssues
        [⟨"o", "r", 1, "s1", "u1", "completed", none, 5⟩,
         ⟨"o", "r", 1, "s2", "u2", "in_progress", none, 9⟩,
         ⟨"o", "r", 2, "s3", "u3", "pending", none, 7⟩]
        "o" "r" [1, 3]).lookup 3 = none) ∧
    (⟨"o", "r", 1, "s2", "u2", "in_progress", none, 9⟩ ∈
      ([⟨"o", "r", 1, "s1", "u1", "completed", none, 5⟩,
        ⟨"o", "r", 1, "s2", "u2", "in_progress", none, 9⟩,
        ⟨"o", "r", 2, "s3", "u3", "pending", none, 7⟩] :
        List TriageSessionRow).filter (sessionKeyMatches "o" "r" 1)) := by
  refine ⟨by decide, ?_, by decide⟩
  have h := (getTriageSession_latest
    [⟨"o", "r", 1, "s1", "u1", "completed", none, 5⟩,
     ⟨"o", "r", 1, "s2", "u2", "in_progress", none, 9⟩,
     ⟨"o", "r", 2, "s3", "u3", "pending", none, 7⟩]
    "o" "r" 3).2.2.1 [1, 3] (by decide)
  exact h.1.mpr (by decide)

/-- A row of the issue_workflows table (interface IssueWorkflow), without
the store-assigned id and timestamps. -/
structure IssueWorkflowRecord where
  repo_owner : String
  repo_name : String
  issue_number : Nat
  workflow_status : String
  triage_session_id : Option String
  triage_session_url : Option String
  pr_session_id : Option String
  pr_session_url : Option String
  pr_url : Option String
deriving DecidableEq, Repr

/-- Conflict test of the upsert: equality on the
(repo_owner, repo_name, issue_number) key named by onConflict. -/
def workflowKeyMatches (a b : IssueWorkflowRecord) : Bool :=
  a.repo_owner == b.repo_owner && a.repo_name == b.repo_name &&
    a.issue_number == b.issue_number

/-- Function upsertIssueWorkflow from src/lib/supabase.ts: a Postgres upsert
with onConflict on the key columns replaces the conflicting row in place when
one exists and inserts the record otherwise. -/
def upsertIssueWorkflow (db : List IssueWorkflowRecord)
    (w : IssueWorkflowRecord) : List IssueWorkflowRecord :=
  if db.any (workflowKeyMatches w) then
    db.map (fun row => if workflowKeyMatches w row then w else row)
  else
    db ++ [w]

theorem workflowKeyMatches_self (w : IssueWorkflowRecord) :
    workflowKeyMatches w w = true := by
  simp [workflowKeyMatches]

theorem workflowKeyMatches_congr (a b : IssueWorkflowRecord)
    (hab : workflowKeyMatches a b = true) :
    ∀ row, workflowKeyMatches b row = workflowKeyMatches a row := by
  intro row
  simp only [workflowKeyMatches, Bool.and_eq_true, beq_iff_eq] at hab
  simp only [workflowKeyMatches, hab.1.2, hab.2, hab.1.1]

theorem filter_key_map_replace (w : IssueWorkflowRecord) :
    ∀ db : List IssueWorkflowRecord,
    (db.map (fun row => if workflowKeyMatches w row then w else row)).filter
        (workflowKeyMatches w) =
      List.replicate (db.filter (workflowKeyMatches w)).length w := by
  intro db
  induction db with
  | nil => rfl
  | cons a db ih =>
      cases ha : workflowKeyMatches w a with
      | true =>
          simp only [List.map_cons, List.filter_cons, ha, if_pos rfl,
            workflowKeyMatches_self w, ite_true, List.length_cons, ih]
          rfl
      | false =>
          simp only [List.map_cons, List.filter_cons, ha, ite_false, ih]
          simp [ha]

theorem filter_key_upsert (db : List IssueWorkflowRecord)
    (w : IssueWorkflowRecord)
    (hone : (db.filter (workflowKeyMatches w)).length ≤ 1) :
    (upsertIssueWorkflow db w).filter (workflowKeyMatches w) = [w] := by
  unfold upsertIssueWorkflow
  cases hany : db.any (workflowKeyMatches w) with
  | false =>
      rw [if_neg Bool.false_ne_true]
      rw [List.filter_append]
      have hnil : db.filter (workflowKeyMatches w) = [] := by
        rw [List.filter_eq_nil_iff]
        intro x hx
        have := List.any_eq_false.mp hany x hx
        simpa using this
      rw [hnil]
      simp [workflowKeyMatches_self w]
  | true =>
      rw [if_pos rfl, filter_key_map_replace]
      obtain ⟨x, hx, hkx⟩ := List.any_eq_true.mp hany
      have hpos : 0 < (db.filter (workflowKeyMatches w)).length := by
        have : x ∈ db.filter (workflowKeyMatches w) :=
          List.mem_filter.mpr ⟨hx, hkx⟩
        exact List.length_pos.mpr (fun hnil => by rw [hnil] at this; cases this)
      have : (db.filter (workflowKeyMatches w)).length = 1 :=
        Nat.le_antisymm hone hpos
      rw [this]
      rfl

theorem map_replace_eq_self (k : IssueWorkflowRecord → Bool)
    (b : IssueWorkflowRecord) :
    ∀ l : List IssueWorkflowRecord,
    (∀ row ∈ l, k row = true → row = b) →
    l.map (fun row => if k row then b else row) = l := by
  intro l
  induction l with
  | nil => intro _; rfl
  | cons a l ih =>
      intro h
      cases ha : k a with
      | true =>
          have hab : a = b := h a (List.mem_cons_self _ _) ha
          simp only [List.map_cons, ha, ite_true,
            ih (fun row hrow => h row (List.mem_cons_of_mem a hrow)), hab]
          simp
      | false =>
          simp only [List.map_cons, ha, ite_false,
            ih (fun row hrow => h row (List.mem_cons_of_mem a hrow))]
          simp

/-- C6: the upsert is idempotent with last-write-wins semantics on the
(repo_owner, repo_name, issue_number) key: starting from a store with at
most one row of the key, two upserts of records sharing the key leave
exactly one row for that key, carrying the second record, and repeating an
upsert of the same record changes nothing. -/
theorem upsertIssueWorkflow_idempotent (db : List IssueWorkflowRecord)
    (a b : IssueWorkflowRecord)
    (hab : workflowKeyMatches a b = true)
    (hone : (db.filter (workflowKeyMatches a)).length ≤ 1) :
    (upsertIssueWorkflow (upsertIssueWorkflow db a) b).filter
        (workflowKeyMatches b) = [b] ∧
    upsertIssueWorkflow (upsertIssueWorkflow db b) b =
      upsertIssueWorkflow db b := by
  have hcongr := workflowKeyMatches_congr a b hab
  have honeb : (db.filter (workflowKeyMatches b)).length ≤ 1 := by
    rw [List.filter_congr (fun x _ => hcongr x)]
    exact hone
  constructor
  · have h1 : (upsertIssueWorkflow db a).filter (workflowKeyMatches a) =
        [a] := filter_key_upsert db a hone
    have h1b : (upsertIssueWorkflow db a).filter (workflowKeyMatches b) =
        [a] := by
      rw [List.filter_congr (fun x _ => hcongr x)]
      exact h1
    exact filter_key_upsert (upsertIssueWorkflow db a) b
      (by rw [h1b]; exact Nat.le_refl 1)
  · have h2 : (upsertIssueWorkflow db b).filter (workflowKeyMatches b) =
        [b] := filter_key_upsert db b honeb
    have hmemb : b ∈ upsertIssueWorkflow db b := by
      have : b ∈ (upsertIssueWorkflow db b).filter (workflowKeyMatches b) :=
        by rw [h2]; exact List.mem_cons_self _ _
      exact List.mem_of_mem_filter this
    have hany : (upsertIssueWorkflow db b).any (workflowKeyMatches b) =
        true :=
      List.any_eq_true.mpr ⟨b, hmemb, workflowKeyMatches_self b⟩
    conv_lhs => rw [upsertIssueWorkflow]
    rw [if_pos hany]
    apply map_replace_eq_self
    intro row hrow hkrow
    have : row ∈ (upsertIssueWorkflow db b).filter (workflowKeyMatches b) :=
      List.mem_filter.mpr ⟨hrow, hkrow⟩
    rw [h2] at this
    simpa using this

theorem upsertIssueWorkflow_idempotent_witness :
    (upsertIssueWorkflow (upsertIssueWorkflow
        [⟨"o", "r", 1, "new", none, none, none, none, none⟩]
        ⟨"o", "r", 1, "triaged", some "s", none, none, none, none⟩)
        ⟨"o", "r", 1, "processing", some "s", none, some "p", some "u",
          none⟩).filter
      (workflowKeyMatches ⟨"o", "r", 1, "processing", some "s", none,
        some "p", some "u", none⟩) =
      [⟨"o", "r", 1, "processing", some "s", none, some "p", some "u",
        none⟩] :=
  (upsertIssueWorkflow_idempotent
    [⟨"o", "r", 1, "new", none, none, none, none, none⟩]
    ⟨"o", "r", 1, "triaged", some "s", none, none, none, none⟩
    ⟨"o", "r", 1, "processing", some "s", none, some "p", some "u", none⟩
    (by decide) (by decide)).1

/-! Error branches of the single-record lookups in src/lib/supabase.ts. -/

/-- PostgREST error outcomes of a single() query: the PGRST116 code raised
when no row matches, or any other (connectivity or constraint) failure. -/
inductive PgError where
  | pgrst116
  | connectivity
deriving DecidableEq, Repr

/-- Result handling of getTriageSession in src/lib/supabase.ts over the
outcome of its query: data on success; on error, the PGRST116 code returns
null, and any other error is logged to the console and the function likewise
returns null. -/
def getTriageSessionOutcome (res : Except PgError TriageSessionRow) :
    Option TriageSessionRow :=
  match res with
  | .ok row => some row
  | .error .pgrst116 => none
  | .error .connectivity => none

/-- Result handling of getIssueWorkflow in src/lib/supabase.ts, identical in
shape to getTriageSessionOutcome. -/
def getIssueWorkflowOutcome (res : Except PgError IssueWorkflowRecord) :
    Option IssueWorkflowRecord :=
  match res with
  | .ok row => some row
  | .error .pgrst116 => none
  | .error .connectivity => none

/-- C9 counterexample: on both single-record lookups a connectivity or
constraint-violation failure is mapped to the very same absent result as the
PGRST116 not-found outcome, so the caller cannot distinguish them,
contradicting the claim that such failures are reported to the caller. -/
theorem lookup_connectivity_indistinguishable :
    getTriageSessionOutcome (.error .connectivity) =
      getTriageSessionOutcome (.error .pgrst116) ∧
    getIssueWorkflowOutcome (.error .connectivity) =
      getIssueWorkflowOutcome (.error .pgrst116) ∧
    getTriageSessionOutcome (.error .connectivity) = none ∧
    getIssueWorkflowOutcome (.error .connectivity) = none :=
  ⟨rfl, rfl, rfl, rfl⟩

/-- C9 (amended): a not-found condition on the single-record lookups is a
normal non-exceptional outcome returning an absent result, but connectivity
and constraint-violation failures are only logged and are mapped to the same
absent result, indistinguishable to the caller from not-found. -/
theorem lookup_error_mapping :
    (∀ row, getTriageSessionOutcome (.ok row) = some row) ∧
    (∀ e, getTriageSessionOutcome (.error e) = none) ∧
    (∀ row, getIssueWorkflowOutcome (.ok row) = some row) ∧
    (∀ e, getIssueWorkflowOutcome (.error e) = none) := by
  refine ⟨fun row => rfl, fun e => ?_, fun row => rfl, fun e => ?_⟩
  · cases e <;> rfl
  · cases e <;> rfl

end GhIssues
